import Mathlib

/-!
Shallow embedding of the pps-tools crate (a typed user-space wrapper around the
Linux PPS ioctl interface).  Pure computations are translated directly from the
Rust source; the ioctl syscall itself is the opaque boundary, so the functions
below model everything the library computes up to (and from) the packed
structures it hands to the kernel.

Machine integers are modelled as follows:
  * `i32` bit patterns used as mode bitmasks: `Nat` values `< 2^32`
    (the library only ever builds them from non-negative flag constants);
    `int32OfBits` recovers the signed value for comparisons such as
    `bit_test > 0`.
  * `i32`/`i64` values carrying signed quantities (sequence counters,
    `tv_sec`/`tv_nsec`): `Int`, with explicit wrapping where Rust performs
    an `as` cast.
  * `u32`/`u64`: `Nat`, with bounds stated as hypotheses where they matter.
-/

/-- The eleven mode-flag variants of `PpsModeBit` (src/common.rs). -/
inductive PpsModeBit where
  | captureAssert
  | captureClear
  | captureBoth
  | offsetAssert
  | offsetClear
  | canWait
  | canPoll
  | echoAssert
  | echoClear
  | tsFmtTSpec
  | tsFmtNTPFP
deriving DecidableEq, Repr

/-- The discriminant of each `PpsModeBit` variant (src/common.rs lines 20-34). -/
def PpsModeBit.val : PpsModeBit → Nat
  | .captureAssert => 0x01
  | .captureClear => 0x02
  | .captureBoth => 0x03
  | .offsetAssert => 0x10
  | .offsetClear => 0x20
  | .canWait => 0x100
  | .canPoll => 0x200
  | .echoAssert => 0x40
  | .echoClear => 0x80
  | .tsFmtTSpec => 0x1000
  | .tsFmtNTPFP => 0x2000

/-- Declaration-order list of all variants, as produced by `PpsModeBit::iter()`
(the derived `EnumIter` iterates in declaration order). -/
def PpsModeBit.all : List PpsModeBit :=
  [.captureAssert, .captureClear, .captureBoth, .offsetAssert, .offsetClear,
   .canWait, .canPoll, .echoAssert, .echoClear, .tsFmtTSpec, .tsFmtNTPFP]

/-- All 32 bits set: the `u32` bit pattern of `!0i32`, used to model
`mode &= !(bit as i32)`. -/
def u32Mask : Nat := 4294967295

/-- Signed value of an `i32` bit pattern (two's complement). -/
def int32OfBits (n : Nat) : Int :=
  if n < 2147483648 then (n : Int) else (n : Int) - 4294967296

/-- `PpsMode` (src/common.rs line 79): newtype over the raw `i32` mode word,
stored here as its bit pattern. -/
structure PpsMode where
  bits : Nat
deriving DecidableEq, Repr

/-- `impl From<i32> for PpsMode` (src/common.rs lines 106-110). -/
def PpsMode.ofRaw (n : Nat) : PpsMode := ⟨n⟩

/-- `impl From<PpsMode> for i32` (src/common.rs lines 100-104). -/
def PpsMode.raw (m : PpsMode) : Nat := m.bits

/-- `PpsMode::mode_is_set` (src/common.rs lines 94-97): bitwise AND with the
flag's value, then the signed comparison `bit_test > 0`. -/
def PpsMode.mode_is_set (m : PpsMode) (mode : PpsModeBit) : Bool :=
  decide (0 < int32OfBits (m.bits &&& mode.val))

/-- `PpsMode::get_bits` (src/common.rs lines 86-92), with the `HashMap`
modelled as the association list of inserted (key, value) pairs. -/
def PpsMode.get_bits (m : PpsMode) : List (PpsModeBit × Bool) :=
  PpsModeBit.all.map fun bit => (bit, m.mode_is_set bit)

/-- `PpsModeBuilder` (src/common.rs line 54): accumulates a mode word. -/
structure PpsModeBuilder where
  mode : Nat
deriving DecidableEq, Repr

/-- `PpsModeBuilder::new` (src/common.rs lines 59-61). -/
def PpsModeBuilder.new : PpsModeBuilder := ⟨0⟩

/-- `PpsModeBuilder::add_mode` (src/common.rs lines 63-66): `mode |= bit`. -/
def PpsModeBuilder.add_mode (b : PpsModeBuilder) (bit : PpsModeBit) : PpsModeBuilder :=
  ⟨b.mode ||| bit.val⟩

/-- `PpsModeBuilder::remove_mode` (src/common.rs lines 68-71):
`mode &= !(bit as i32)`; on bit patterns the complement of `bit` within 32 bits
is `u32Mask ^^^ bit.val`. -/
def PpsModeBuilder.remove_mode (b : PpsModeBuilder) (bit : PpsModeBit) : PpsModeBuilder :=
  ⟨b.mode &&& (u32Mask ^^^ bit.val)⟩

/-- `PpsModeBuilder::build` (src/common.rs lines 73-75). -/
def PpsModeBuilder.build (b : PpsModeBuilder) : PpsMode := ⟨b.mode⟩

/-- A single builder call, for reasoning about call sequences. -/
inductive BuilderOp where
  | add (bit : PpsModeBit)
  | remove (bit : PpsModeBit)
deriving DecidableEq, Repr

/-- The flag an operation touches. -/
def BuilderOp.flag : BuilderOp → PpsModeBit
  | .add bit => bit
  | .remove bit => bit

/-- Apply one builder call. -/
def PpsModeBuilder.applyOp (b : PpsModeBuilder) : BuilderOp → PpsModeBuilder
  | .add bit => b.add_mode bit
  | .remove bit => b.remove_mode bit

/-- Apply a sequence of builder calls, left to right. -/
def PpsModeBuilder.applyOps (b : PpsModeBuilder) (ops : List BuilderOp) : PpsModeBuilder :=
  ops.foldl PpsModeBuilder.applyOp b

/-- `PpsVersion` (src/common.rs line 113): newtype over `i32`. -/
structure PpsVersion where
  version : Int
deriving DecidableEq, Repr

/-- `PpsVersion::new` (src/common.rs lines 116-118). -/
def PpsVersion.new (version : Int) : PpsVersion := ⟨version⟩

/-- `impl From<PpsVersion> for i32` (src/common.rs lines 128-132). -/
def PpsVersion.raw (v : PpsVersion) : Int := v.version

/-- `UNIX_NTP_OFFSET` (src/lib.rs line 19). -/
def UNIX_NTP_OFFSET : Int := 3124137599 - 915148799

/-- `NtpFp` (src/lib.rs lines 120-124): 32-bit integral seconds and 32-bit
fraction of a second in units of `1/2^32`. -/
structure NtpFp where
  integral : Nat
  fractional : Nat
deriving DecidableEq, Repr

/-- `nix::sys::time::TimeSpec`: seconds and nanoseconds, both `i64`-valued. -/
structure TimeSpec where
  tv_sec : Int
  tv_nsec : Int
deriving DecidableEq, Repr

/-- `impl From<NtpFp> for TimeSpec` (src/lib.rs lines 126-132).  Note the
source computes `value.fractional as i64 / 4294967296 * 1000000000`, i.e. it
divides before multiplying; both operands are non-negative and the products
stay below `2^63`, so `i64` arithmetic coincides with `Nat` arithmetic here. -/
def ntpFpToTimeSpec (value : NtpFp) : TimeSpec :=
  { tv_sec := (value.integral : Int) - UNIX_NTP_OFFSET
    tv_nsec := ((value.fractional / 4294967296 * 1000000000 : Nat) : Int) }

/-- Rust's `{:0w}` zero-padded formatting of a non-negative integer: pad the
decimal digits with leading zeros up to a minimum width `w`. -/
def padZeros (w : Nat) (n : Nat) : String :=
  let s := toString n
  String.mk (List.replicate (w - s.length) '0') ++ s

/-- `impl Display for NtpFp` (src/lib.rs lines 134-154).  The source's second
`else if` repeats the condition `n_sec % 1_000_000 == 0` of the first, so its
microsecond branch is unreachable; it is kept here verbatim. -/
def NtpFp.display (v : NtpFp) : String :=
  let sec := v.integral
  let n_sec := v.fractional * 1000000000 / 4294967296
  if n_sec = 0 then
    if sec = 1 then "1 second" else toString sec ++ " seconds"
  else if n_sec % 1000000 = 0 then
    toString sec ++ "." ++ padZeros 3 (n_sec / 1000000) ++ " seconds"
  else if n_sec % 1000000 = 0 then
    toString sec ++ "." ++ padZeros 6 (n_sec / 1000) ++ " seconds"
  else
    toString sec ++ "." ++ padZeros 9 n_sec ++ " seconds"

/-- `PpsTimeU` (src/lib.rs lines 156-160). -/
inductive PpsTimeU where
  | timeSpec (ts : TimeSpec)
  | ntpFp (v : NtpFp)
deriving DecidableEq, Repr

/-- `impl Default for PpsTimeU` (src/lib.rs lines 162-166). -/
def PpsTimeU.default : PpsTimeU := .timeSpec ⟨0, 0⟩

/-- `PpsParams` (src/lib.rs lines 168-174). -/
structure PpsParams where
  api_version : PpsVersion
  mode : PpsMode
  assert_off_tu : PpsTimeU
  clear_off_tu : PpsTimeU
deriving DecidableEq, Repr

/-- `PpsInfo` (src/lib.rs lines 176-183): sequence counters are `u64`. -/
structure PpsInfo where
  assert_sequence : Nat
  clear_sequence : Nat
  assert_tu : PpsTimeU
  clear_tu : PpsTimeU
  mode : PpsMode
deriving DecidableEq, Repr

/-- `LinuxTimeSpec` (src/linux/mod.rs lines 14-20): `tv_sec: i64`,
`tv_nsec: i32`, `flags: u32`. -/
structure LinuxTimeSpec where
  tv_sec : Int
  tv_nsec : Int
  flags : Nat
deriving DecidableEq, Repr

/-- `impl Default for LinuxTimeSpec` (src/linux/mod.rs lines 22-30): note
`flags: 1` (the kernel's PPS_TIME_INVALID marker), not zero. -/
def LinuxTimeSpec.default : LinuxTimeSpec := ⟨0, 0, 1⟩

/-- Signed value of a `u64` bit pattern reinterpreted as `i64`
(Rust `u64 as i64`). -/
def int64OfBits (n : Nat) : Int :=
  if n < 9223372036854775808 then (n : Int) else (n : Int) - 18446744073709551616

/-- Rust `i64 as i32`: wrap the value into `[-2^31, 2^31)`. -/
def int32OfInt (v : Int) : Int :=
  (v + 2147483648) % 4294967296 - 2147483648

/-- Rust `i32 as u64`: sign-extend to 64 bits, then reinterpret the bit
pattern as unsigned, i.e. reduce the value modulo `2^64`. -/
def i32AsU64 (v : Int) : Nat := (v % 18446744073709551616).toNat

/-- `impl From<LinuxTimeSpec> for TimeSpec` (src/linux/mod.rs lines 32-36):
`TimeSpec::new(value.tv_sec, value.tv_nsec as i64)`; the `i32` field's value
is preserved by the widening cast. -/
def LinuxTimeSpec.toTimeSpec (value : LinuxTimeSpec) : TimeSpec :=
  ⟨value.tv_sec, value.tv_nsec⟩

/-- `impl From<TimeSpec> for LinuxTimeSpec` (src/linux/mod.rs lines 38-46):
`tv_nsec as i32` narrows, `flags` is set to 0. -/
def TimeSpec.toLinux (value : TimeSpec) : LinuxTimeSpec :=
  ⟨value.tv_sec, int32OfInt value.tv_nsec, 0⟩

/-- `std::time::Duration`: `u64` whole seconds plus `u32` subsecond
nanoseconds (`nanos < 10^9` holds for every value Rust can construct and is
taken as a hypothesis where it matters). -/
structure Duration where
  secs : Nat
  nanos : Nat
deriving DecidableEq, Repr

/-- `Duration::is_zero`. -/
def Duration.is_zero (d : Duration) : Bool := d.secs == 0 && d.nanos == 0

/-- `nix`'s `TimeSpec::from_duration`, used by `impl From<Duration> for
TimeSpec`: `tv_sec = duration.as_secs() as i64`,
`tv_nsec = duration.subsec_nanos() as i64`. -/
def Duration.toTimeSpec (d : Duration) : TimeSpec :=
  ⟨int64OfBits d.secs, (d.nanos : Int)⟩

/-- `impl From<Duration> for LinuxTimeSpec` (src/linux/mod.rs lines 48-53):
through `TimeSpec`. -/
def Duration.toLinuxTimeSpec (d : Duration) : LinuxTimeSpec :=
  d.toTimeSpec.toLinux

/-- `union LinuxPpsTime` (src/linux/mod.rs lines 55-59) declares a single
member `tspec`, so it is a one-field record. -/
structure LinuxPpsTime where
  tspec : LinuxTimeSpec
deriving DecidableEq, Repr

/-- `impl Default for LinuxPpsTime` (src/linux/mod.rs lines 61-67). -/
def LinuxPpsTime.default : LinuxPpsTime := ⟨LinuxTimeSpec.default⟩

/-- `impl From<PpsTimeU> for LinuxPpsTime` (src/linux/mod.rs lines 69-79):
an `NtpFp` payload is first converted to a `TimeSpec`. -/
def PpsTimeU.toLinuxPpsTime : PpsTimeU → LinuxPpsTime
  | .timeSpec ts => ⟨ts.toLinux⟩
  | .ntpFp v => ⟨(ntpFpToTimeSpec v).toLinux⟩

/-- `get_tus_from_pps_time` (src/linux/mod.rs lines 81-96).  The source
`assert!`s that the mode's duration-format bit is set and then reads both
union members as `tspec`; the panic of a failed assertion is modelled as
`none`. -/
def get_tus_from_pps_time (mode : PpsMode) (assert_tu clear_tu : LinuxPpsTime) :
    Option (PpsTimeU × PpsTimeU) :=
  if mode.mode_is_set .tsFmtTSpec then
    some (.timeSpec assert_tu.tspec.toTimeSpec, .timeSpec clear_tu.tspec.toTimeSpec)
  else
    none

/-- `LinuxPpsInfo` (src/linux/mod.rs lines 98-106): the sequence counters are
`i32`, `current_mode` is a `c_int` mode word (kept as its bit pattern). -/
structure LinuxPpsInfo where
  assert_sequence : Int
  clear_sequence : Int
  assert_tu : LinuxPpsTime
  clear_tu : LinuxPpsTime
  current_mode : Nat
deriving DecidableEq, Repr

/-- `impl From<LinuxPpsInfo> for PpsInfo` (src/linux/mod.rs lines 108-120);
`none` models the panic of the assertion inside `get_tus_from_pps_time`.
The `i32` counters are cast to `u64` with `as`. -/
def LinuxPpsInfo.toPpsInfo (value : LinuxPpsInfo) : Option PpsInfo :=
  (get_tus_from_pps_time (PpsMode.ofRaw value.current_mode) value.assert_tu value.clear_tu).map
    fun tus =>
      { assert_sequence := i32AsU64 value.assert_sequence
        assert_tu := tus.1
        clear_sequence := i32AsU64 value.clear_sequence
        clear_tu := tus.2
        mode := PpsMode.ofRaw value.current_mode }

/-- `LinuxPpsParams` (src/linux/mod.rs lines 122-129). -/
structure LinuxPpsParams where
  api_version : Int
  mode : Nat
  assert_off_tu : LinuxPpsTime
  clear_off_tu : LinuxPpsTime
deriving DecidableEq, Repr

/-- `LinuxPpsParams::new` (src/linux/mod.rs lines 131-145). -/
def LinuxPpsParams.new (api_version : Int) (mode : Nat)
    (assert_off_tu clear_off_tu : LinuxPpsTime) : LinuxPpsParams :=
  ⟨api_version, mode, assert_off_tu, clear_off_tu⟩

/-- `impl From<LinuxPpsParams> for PpsParams` (src/linux/mod.rs lines
147-158). -/
def LinuxPpsParams.toPpsParams (value : LinuxPpsParams) : Option PpsParams :=
  (get_tus_from_pps_time (PpsMode.ofRaw value.mode) value.assert_off_tu value.clear_off_tu).map
    fun tus =>
      { api_version := PpsVersion.new value.api_version
        mode := PpsMode.ofRaw value.mode
        assert_off_tu := tus.1
        clear_off_tu := tus.2 }

/-- The pure part of `LinuxPpsIoc::set_params` (src/linux/mod.rs lines
208-226): the packed `LinuxPpsParams` record handed to the
`PPS_IOC_SETPARAMS` ioctl. -/
def LinuxPpsIoc.set_params_request (assert_offset clear_offset : PpsTimeU)
    (api_version : PpsVersion) (mode : PpsMode) : LinuxPpsParams :=
  LinuxPpsParams.new api_version.raw mode.raw
    assert_offset.toLinuxPpsTime clear_offset.toLinuxPpsTime

/-- The pure part of `PpsFile::set_params` (src/lib.rs lines 62-71): the wire
record produced for a caller-supplied `PpsParams`.  The source passes
`params.assert_off_tu` for BOTH the assert-offset and the clear-offset
arguments. -/
def PpsFile.set_params_request (params : PpsParams) : LinuxPpsParams :=
  LinuxPpsIoc.set_params_request params.assert_off_tu params.assert_off_tu
    params.api_version params.mode

/-- The pure part of `PpsFile::fetch` (src/lib.rs lines 77-86): the timeout
record handed to the `PPS_IOC_FETCH` ioctl. -/
def PpsFile.fetch_timeout_request (timeout : Duration) : LinuxTimeSpec :=
  if timeout.is_zero then LinuxTimeSpec.default else timeout.toLinuxTimeSpec

theorem lor_land_self (m v : Nat) : (m ||| v) &&& v = v := by
  apply Nat.eq_of_testBit_eq
  intro i
  rw [Nat.testBit_land, Nat.testBit_lor]
  cases v.testBit i <;> simp

theorem land_assoc_nat (a b c : Nat) : a &&& b &&& c = a &&& (b &&& c) := by
  apply Nat.eq_of_testBit_eq
  intro i
  simp [Nat.testBit_land, Bool.and_assoc]

theorem land_zero_nat (m : Nat) : m &&& 0 = 0 := by
  apply Nat.eq_of_testBit_eq
  intro i
  simp [Nat.testBit_land]

/-- The concrete `PpsParams` value exhibiting the `set_params` slip: distinct
assert and clear offsets. -/
def c1Params : PpsParams :=
  { api_version := PpsVersion.new 1
    mode := PpsMode.ofRaw 4096
    assert_off_tu := PpsTimeU.timeSpec ⟨1, 0⟩
    clear_off_tu := PpsTimeU.timeSpec ⟨2, 0⟩ }

/-- Claim C1: the wire record written by `PpsFile::set_params` is claimed to
fill its clear-offset slot from the caller's `clear_off_tu`.  Evaluated at a
`PpsParams` whose assert offset is 1 s and whose clear offset is 2 s, the
request's clear slot is NOT the packed clear offset: it is the packed assert
offset, because the source passes `params.assert_off_tu` for both arguments
(src/lib.rs lines 65-66). -/
theorem set_params_clear_slot_gets_assert_offset :
    (PpsFile.set_params_request c1Params).assert_off_tu =
      c1Params.assert_off_tu.toLinuxPpsTime ∧
    (PpsFile.set_params_request c1Params).clear_off_tu ≠
      c1Params.clear_off_tu.toLinuxPpsTime ∧
    (PpsFile.set_params_request c1Params).clear_off_tu =
      c1Params.assert_off_tu.toLinuxPpsTime := by
  refine ⟨rfl, ?_, rfl⟩
  decide

/-- Claim C2: the NtpFraction-to-Duration conversion is claimed to produce
nanoseconds = fractional * 10^9 / 2^32.  Evaluated at fractional = 2^31
(and integral = NTP epoch offset + 5), the code produces 0 nanoseconds,
because src/lib.rs line 129 divides by 2^32 before multiplying by 10^9;
the claimed formula gives 500000000.  The seconds part does follow the
claimed formula: integral - 2208988800. -/
theorem ntp_fraction_conversion_truncates_to_zero :
    ntpFpToTimeSpec ⟨2208988805, 2147483648⟩ = ⟨5, 0⟩ ∧
    2147483648 * 1000000000 / 4294967296 = 500000000 := by
  constructor
  · decide
  · decide

/-- The bitwise OR of all eleven defined flag values (= 0x33F3). -/
def definedFlagMask : Nat :=
  PpsModeBit.all.foldl (fun acc bit => acc ||| bit.val) 0

/-- Claim C7: for a raw 32-bit mode word whose set bits all lie in defined
flag positions, `From<i32> for PpsMode` followed by `From<PpsMode> for i32`
is the identity (both impls are field projections of the newtype). -/
theorem mode_raw_roundtrip (n : Nat) (h : n &&& definedFlagMask = n) :
    (PpsMode.ofRaw n).raw = n := rfl

theorem mode_raw_roundtrip_witness : (PpsMode.ofRaw 4097).raw = 4097 :=
  mode_raw_roundtrip 4097 (by decide)

/-- Claim C9: the NtpFraction-to-Duration conversion of src/lib.rs lines
126-132 is monotone in the integral field when the fractional field is held
fixed, and yields exactly 0 nanoseconds when the fractional field is 0. -/
theorem ntp_to_timespec_monotone_and_exact_at_zero (a b : NtpFp)
    (hf : a.fractional = b.fractional) (hi : a.integral ≤ b.integral) :
    (ntpFpToTimeSpec a).tv_sec ≤ (ntpFpToTimeSpec b).tv_sec ∧
    (a.fractional = 0 → (ntpFpToTimeSpec a).tv_nsec = 0) := by
  constructor
  · simp only [ntpFpToTimeSpec]
    omega
  · intro h0
    simp [ntpFpToTimeSpec, h0]

theorem ntp_to_timespec_monotone_and_exact_at_zero_witness :
    (ntpFpToTimeSpec ⟨3, 0⟩).tv_sec ≤ (ntpFpToTimeSpec ⟨7, 0⟩).tv_sec ∧
    ((3 : Nat) = 3 → (ntpFpToTimeSpec ⟨3, 0⟩).tv_nsec = 0) := by
  have h := ntp_to_timespec_monotone_and_exact_at_zero ⟨3, 0⟩ ⟨7, 0⟩ rfl (by decide)
  exact ⟨h.1, fun _ => h.2 rfl⟩

/-- Claim C3: starting from `PpsModeBuilder::new`, after any prefix of builder
calls, `mode_is_set f` on the built mode is true immediately after
`add_mode f`; and after further calls touching only flags other than `f`
followed by `remove_mode f`, it is false.  This holds for all eleven flags,
including the overlapping CaptureAssert/CaptureClear/CaptureBoth values,
because `add_mode` ORs in the whole flag value and `remove_mode` clears every
bit of it. -/
theorem add_remove_mode_bit_independent (pre mid : List BuilderOp) (f : PpsModeBit)
    (hmid : ∀ op ∈ mid, BuilderOp.flag op ≠ f) :
    ((PpsModeBuilder.new.applyOps pre).add_mode f).build.mode_is_set f = true ∧
    (((((PpsModeBuilder.new.applyOps pre).add_mode f).applyOps mid).remove_mode f).build.mode_is_set f = false) := by
  constructor
  · simp only [PpsModeBuilder.build, PpsModeBuilder.add_mode, PpsMode.mode_is_set,
      lor_land_self]
    cases f <;> decide
  · simp only [PpsModeBuilder.build, PpsModeBuilder.remove_mode, PpsMode.mode_is_set,
      land_assoc_nat]
    have h0 : (u32Mask ^^^ PpsModeBit.val f) &&& PpsModeBit.val f = 0 := by
      cases f <;> decide
    rw [h0, land_zero_nat]
    decide

theorem add_remove_mode_bit_independent_witness :
    ((PpsModeBuilder.new.applyOps []).add_mode PpsModeBit.captureAssert).build.mode_is_set
      PpsModeBit.captureAssert = true ∧
    (((((PpsModeBuilder.new.applyOps []).add_mode PpsModeBit.captureAssert).applyOps
        [BuilderOp.add PpsModeBit.captureBoth, BuilderOp.remove PpsModeBit.captureClear]).remove_mode
      PpsModeBit.captureAssert).build.mode_is_set PpsModeBit.captureAssert = false) :=
  add_remove_mode_bit_independent []
    [BuilderOp.add PpsModeBit.captureBoth, BuilderOp.remove PpsModeBit.captureClear]
    PpsModeBit.captureAssert (by decide)

/-- Claim C5: `get_tus_from_pps_time` requires the duration-format bit
`TsFmtTSpec` to be set in the accompanying mode (otherwise the source's
`assert!` panics, modelled as `none`), and whenever that precondition holds it
interprets BOTH union timestamp members as duration-form `TimeSpec` values. -/
theorem get_tus_requires_and_uses_tspec_format (mode : PpsMode)
    (assert_tu clear_tu : LinuxPpsTime)
    (h : mode.mode_is_set PpsModeBit.tsFmtTSpec = true) :
    get_tus_from_pps_time mode assert_tu clear_tu =
      some (PpsTimeU.timeSpec assert_tu.tspec.toTimeSpec,
            PpsTimeU.timeSpec clear_tu.tspec.toTimeSpec) ∧
    (∀ mode2 : PpsMode, mode2.mode_is_set PpsModeBit.tsFmtTSpec = false →
      get_tus_from_pps_time mode2 assert_tu clear_tu = none) := by
  constructor
  · simp [get_tus_from_pps_time, h]
  · intro mode2 h2
    simp [get_tus_from_pps_time, h2]

theorem get_tus_requires_and_uses_tspec_format_witness :
    get_tus_from_pps_time (PpsMode.ofRaw 4096) ⟨⟨8, 9, 0⟩⟩ ⟨⟨10, 11, 0⟩⟩ =
      some (PpsTimeU.timeSpec ⟨8, 9⟩, PpsTimeU.timeSpec ⟨10, 11⟩) ∧
    get_tus_from_pps_time (PpsMode.ofRaw 0) ⟨⟨8, 9, 0⟩⟩ ⟨⟨10, 11, 0⟩⟩ = none := by
  have h := get_tus_requires_and_uses_tspec_format (PpsMode.ofRaw 4096)
    ⟨⟨8, 9, 0⟩⟩ ⟨⟨10, 11, 0⟩⟩ (by decide)
  exact ⟨h.1, h.2 (PpsMode.ofRaw 0) (by decide)⟩

/-- Claim C8: for every mode word, the capability map built by
`PpsMode::get_bits` contains each of the eleven defined flags as a key exactly
once — filtering the inserted pairs by any flag yields exactly one entry —
and that entry's value is the flag's bit test `mode_is_set`. -/
theorem get_bits_each_flag_exactly_once (m : PpsMode) (f : PpsModeBit) :
    (m.get_bits.filter fun p => p.1 == f) = [(f, m.mode_is_set f)] := by
  cases f <;> rfl

/-- Claim C4 counterexample: for the zero `Duration`, the timeout record
`PpsFile::fetch` passes to the kernel does NOT have all fields zero — its
`flags` field is 1 (`LinuxTimeSpec::default`, src/linux/mod.rs lines 22-30),
the kernel's invalid-time marker. -/
theorem fetch_zero_timeout_not_all_zero :
    ¬ ((PpsFile.fetch_timeout_request ⟨0, 0⟩).tv_sec = 0 ∧
       (PpsFile.fetch_timeout_request ⟨0, 0⟩).tv_nsec = 0 ∧
       (PpsFile.fetch_timeout_request ⟨0, 0⟩).flags = 0) := by
  decide

/-- Claim C4 (amended): for a zero `Duration`, `PpsFile::fetch` passes the
default timeout record `{tv_sec = 0, tv_nsec = 0, flags = 1}` (the flag being
the kernel's invalid-time marker requesting an indefinite wait); for a
non-zero timeout it passes the converted seconds/nanoseconds with flags 0. -/
theorem fetch_timeout_request_formats (d : Duration)
    (hn : d.nanos < 1000000000) (hs : d.secs < 9223372036854775808) :
    (d.is_zero = true → PpsFile.fetch_timeout_request d = ⟨0, 0, 1⟩) ∧
    (d.is_zero = false →
      PpsFile.fetch_timeout_request d = ⟨(d.secs : Int), (d.nanos : Int), 0⟩) := by
  constructor
  · intro h
    simp [PpsFile.fetch_timeout_request, h, LinuxTimeSpec.default]
  · intro h
    simp only [PpsFile.fetch_timeout_request, h, Bool.false_eq_true, if_false,
      Duration.toLinuxTimeSpec, Duration.toTimeSpec, TimeSpec.toLinux,
      int64OfBits, int32OfInt, LinuxTimeSpec.mk.injEq]
    refine ⟨by rw [if_pos hs], by omega, trivial⟩

theorem fetch_timeout_request_formats_witness :
    PpsFile.fetch_timeout_request ⟨1, 500⟩ = ⟨1, 500, 0⟩ :=
  (fetch_timeout_request_formats ⟨1, 500⟩ (by decide) (by decide)).2 (by decide)

/-- Claim C6: with ns denoting the converted nanoseconds
`fractional * 10^9 / 2^32`, the rendering of an `NtpFp` is "1 second" when
ns = 0 and the integral part is 1; "N seconds" when ns = 0 and the integral
part is N different from 1; "N.mmm seconds" with three zero-padded fractional
digits when ns is a nonzero multiple of 10^6 (so fractional = 2^31 renders
as "X.500 seconds"); and the full nine-digit nanosecond form otherwise. -/
theorem ntp_display_formats (i f : Nat) :
    (f * 1000000000 / 4294967296 = 0 ∧ i = 1 → NtpFp.display ⟨i, f⟩ = "1 second") ∧
    (f * 1000000000 / 4294967296 = 0 ∧ i ≠ 1 →
      NtpFp.display ⟨i, f⟩ = toString i ++ " seconds") ∧
    (f * 1000000000 / 4294967296 ≠ 0 ∧ f * 1000000000 / 4294967296 % 1000000 = 0 →
      NtpFp.display ⟨i, f⟩ =
        toString i ++ "." ++ padZeros 3 (f * 1000000000 / 4294967296 / 1000000) ++ " seconds") ∧
    (f * 1000000000 / 4294967296 ≠ 0 ∧ f * 1000000000 / 4294967296 % 1000000 ≠ 0 →
      NtpFp.display ⟨i, f⟩ =
        toString i ++ "." ++ padZeros 9 (f * 1000000000 / 4294967296) ++ " seconds") ∧
    NtpFp.display ⟨i, 2147483648⟩ = toString i ++ "." ++ "500" ++ " seconds" := by
  refine ⟨fun ⟨h1, h2⟩ => ?_, fun ⟨h1, h2⟩ => ?_, fun ⟨h1, h2⟩ => ?_,
    fun ⟨h1, h2⟩ => ?_, ?_⟩
  · simp [NtpFp.display, h1, h2]
  · simp [NtpFp.display, h1, h2]
  · simp [NtpFp.display, h1, h2]
  · simp [NtpFp.display, h1, h2]
  · have h500 : (2147483648 : Nat) * 1000000000 / 4294967296 = 500000000 := by norm_num
    have hpad : padZeros 3 (500000000 / 1000000) = "500" := by rfl
    simp [NtpFp.display, h500, hpad]

theorem ntp_display_formats_witness :
    NtpFp.display ⟨1, 0⟩ = "1 second" ∧
    NtpFp.display ⟨5, 2147483648⟩ = toString (5 : Nat) ++ "." ++ "500" ++ " seconds" := by
  have h1 := (ntp_display_formats 1 0).1 (by decide)
  have h5 := (ntp_display_formats 5 2147483648).2.2.2.2
  exact ⟨h1, h5⟩

/-- The wire info record used to exhibit sign extension of a negative
sequence counter. -/
def c10Wire : LinuxPpsInfo := ⟨-1, 5, ⟨⟨0, 0, 0⟩⟩, ⟨⟨0, 0, 0⟩⟩, 4096⟩

/-- The typed record `c10Wire` converts to. -/
def c10Info : PpsInfo :=
  ⟨18446744073709551615, 5, PpsTimeU.timeSpec ⟨0, 0⟩, PpsTimeU.timeSpec ⟨0, 0⟩, ⟨4096⟩⟩

/-- Claim C10: converting a wire info record fills both `u64` sequence
counters by the `i32 as u64` cast `i32AsU64`, and that cast preserves
non-negative values exactly while sending a negative value v to 2^64 + v —
which differs from the unsigned 32-bit reinterpretation 2^32 + v. -/
theorem info_sequences_sign_extended (w : LinuxPpsInfo) (info : PpsInfo) (v : Int)
    (hconv : w.toPpsInfo = some info)
    (hlo : -2147483648 ≤ v) (hhi : v < 2147483648) :
    info.assert_sequence = i32AsU64 w.assert_sequence ∧
    info.clear_sequence = i32AsU64 w.clear_sequence ∧
    (0 ≤ v → (i32AsU64 v : Int) = v) ∧
    (v < 0 → (i32AsU64 v : Int) = 18446744073709551616 + v ∧
             (i32AsU64 v : Int) ≠ 4294967296 + v) := by
  have hfields : info.assert_sequence = i32AsU64 w.assert_sequence ∧
      info.clear_sequence = i32AsU64 w.clear_sequence := by
    simp only [LinuxPpsInfo.toPpsInfo] at hconv
    cases hmode : get_tus_from_pps_time (PpsMode.ofRaw w.current_mode) w.assert_tu w.clear_tu with
    | none =>
        rw [hmode] at hconv
        exact absurd hconv (by simp)
    | some tus =>
        rw [hmode] at hconv
        simp only [Option.map_some'] at hconv
        cases hconv
        exact ⟨rfl, rfl⟩
  refine ⟨hfields.1, hfields.2, fun hv => ?_, fun hv => ⟨?_, ?_⟩⟩
  · unfold i32AsU64
    omega
  · unfold i32AsU64
    omega
  · unfold i32AsU64
    omega

theorem info_sequences_sign_extended_witness :
    c10Info.assert_sequence = i32AsU64 c10Wire.assert_sequence ∧
    (i32AsU64 (-1) : Int) = 18446744073709551616 + (-1) ∧
    (i32AsU64 (-1) : Int) ≠ 4294967296 + (-1) := by
  have h := info_sequences_sign_extended c10Wire c10Info (-1)
    (by decide) (by decide) (by decide)
  exact ⟨h.1, (h.2.2.2 (by decide)).1, (h.2.2.2 (by decide)).2⟩
